import Mathlib

/-!
Shallow embedding of the core of the `opentelemetry-service` repository:
the prometheus scrape transaction (`receiver/prometheusreceiver/internal/transaction.go`),
the jaeger_grpc exporter factory, and the example component factories
(`config/example_factories.go`), together with proofs of the specification
claims about them.

Go machine details that carry no logic (the atomic transaction id, the zap
logger, the observability metrics hook) are omitted; Go `nil`-able pointers
become `Option`, Go `error` results become `Option TxError` / `Except`.
-/

namespace OtelSvc

/-! ## Strings and labels

`prometheus/pkg/labels.Labels.Get` returns the value of the first label with
the given name, or `""` when absent.  We model a label set as an association
list. -/

/-- A prometheus label set (`labels.Labels`). -/
def Labels := List (String × String)

instance : DecidableEq Labels := by
  unfold Labels
  infer_instance

/-- Go `labels.Labels.Get`: value of the label with the given name, `""` if absent. -/
def Labels.get (ls : Labels) (name : String) : String :=
  match ls.find? (fun p => p.1 == name) with
  | some p => p.2
  | none => ""

/-! Boolean substring test (Go `strings.Contains`), used to state the
error-message claims.  Defined on character lists so that the proofs can
proceed by structural induction. -/

/-- Predicate `prefixOfB n h`: the char list `n` is a prefix of `h`. -/
def prefixOfB : List Char → List Char → Bool
  | [], _ => true
  | _ :: _, [] => false
  | a :: as, b :: bs => a == b && prefixOfB as bs

/-- Predicate `containsB n h`: the char list `n` occurs contiguously inside `h`. -/
def containsB (needle : List Char) : List Char → Bool
  | [] => prefixOfB needle []
  | c :: t => prefixOfB needle (c :: t) || containsB needle t

/-- Go `strings.Contains hay needle`. -/
def hasSubstr (hay needle : String) : Bool :=
  containsB needle.data hay.data

theorem prefixOfB_self_append (n rest : List Char) :
    prefixOfB n (n ++ rest) = true := by
  induction n with
  | nil => rfl
  | cons c cs ih => simp [prefixOfB, ih]

theorem containsB_of_prefixOfB {n h : List Char} (hp : prefixOfB n h = true) :
    containsB n h = true := by
  cases h with
  | nil => simpa [containsB] using hp
  | cons c t => simp [containsB, hp]

theorem containsB_append_left {n t : List Char} (s : List Char)
    (h : containsB n t = true) : containsB n (s ++ t) = true := by
  induction s with
  | nil => simpa using h
  | cons c cs ih => simp [containsB, ih]

theorem hasSubstr_append_of_right (s t n : String)
    (h : hasSubstr t n = true) : hasSubstr (s ++ t) n = true := by
  unfold hasSubstr
  rw [String.data_append]
  exact containsB_append_left s.data h

theorem hasSubstr_self_append (n rest : String) :
    hasSubstr (n ++ rest) n = true := by
  unfold hasSubstr
  rw [String.data_append]
  exact containsB_of_prefixOfB (prefixOfB_self_append n.data rest.data)

/-! ## Go `strings.Split` on a one-character separator

`transaction.go` splits the scrape `instance` on `":"`.  `splitChars sep l`
is the list of separator-free segments, mirroring Go `strings.Split` (which
always returns at least one segment). -/

/-- Go `strings.Split` restricted to a single-character separator, on the
character list of the string. -/
def splitChars (sep : Char) : List Char → List (List Char)
  | [] => [[]]
  | c :: cs =>
    if c == sep then
      [] :: splitChars sep cs
    else
      match splitChars sep cs with
      | [] => [[c]]
      | h :: t => (c :: h) :: t

/-- Structure of `splitChars`: the first segment is the longest
separator-free prefix, and the remaining segments are the split of what
follows the first separator (none when there is no separator). -/
theorem splitChars_eq (sep : Char) (l : List Char) :
    splitChars sep l =
      l.takeWhile (fun c => c != sep) ::
        (if l.contains sep then
          splitChars sep ((l.dropWhile (fun c => c != sep)).tail)
        else []) := by
  induction l with
  | nil => simp [splitChars]
  | cons c cs ih =>
    by_cases hc : c = sep
    · subst hc
      simp [splitChars, List.takeWhile, List.dropWhile, List.contains_cons]
    · have hne : (c == sep) = false := by simp [hc]
      simp only [splitChars, hne, Bool.false_eq_true, if_false, ih,
        List.takeWhile, List.dropWhile, List.contains_cons, hne,
        bne, Bool.not_false]
      simp [Ne.symm hc]

/-! ## Node construction (`createNode` in transaction.go)

`createNode` returns a `*commonpb.Node` whose `Attributes` map holds exactly
the keys `port` (`portAttr`) and `scheme` (`schemeAttr`); we model that map
by two string fields. -/

/-- The `commonpb.Node` fields populated by `createNode`: service name,
host name, and the `port` / `scheme` attribute values. -/
structure Node where
  serviceName : String
  hostName : String
  portAttr : String
  schemeAttr : String
deriving DecidableEq, Repr

/-- Go `createNode` (transaction.go): split `instance` on `":"`; the host is
segment 0; the port is segment 1 when there are at least two segments and
`"80"` otherwise. -/
def createNode (job inst scheme : String) : Node :=
  let splitted := (splitChars ':' inst.data).map (fun l => String.mk l)
  let host := splitted.headD ""
  let port := if splitted.length ≥ 2 then splitted.getD 1 "80" else "80"
  { serviceName := job
    hostName := host
    portAttr := port
    schemeAttr := scheme }

/-- The spec sentence for C6 reads the port as "the part after the first
`:`": everything following the first colon of `inst`, when `inst` contains
a colon, else `"80"`.  (Stated from the spec's words, to be compared with
`createNode`.) -/
def portAfterFirstColon (inst : String) : String :=
  if inst.data.contains ':' then
    String.mk ((inst.data.dropWhile (fun c => c != ':')).tail)
  else "80"

/-- The spec sentence for C6 reads the host as "the part of instance before
the first `:`". -/
def hostBeforeFirstColon (inst : String) : String :=
  String.mk (inst.data.takeWhile (fun c => c != ':'))

/-! ## The scrape transaction (transaction.go)

State of one scrape transaction.  Go `nil` pointers become `none`; the
`context.Context` is modelled by the boolean `ctxDone` (whether the
cancellation token has been triggered); `jobsMap != nil` becomes the boolean
`hasJobsMap`.  The atomic `id` and the logger carry no logic and are
omitted. -/

/-- Errors a transaction can surface (transaction.go plus the opaque errors
of its collaborators). -/
inductive TxError where
  /-- Go `errMetricNameNotFound` -/
  | metricNameNotFound
  /-- Go `errTransactionAborted` -/
  | transactionAborted
  /-- Go `errNoJobInstance` -/
  | noJobInstance
  /-- dereference of a `nil` `metricBuilder` (a Go panic; unreachable in
  the runs the theorems describe) -/
  | nilBuilder
  /-- an opaque error from a collaborator (`MetadataService.Get`,
  `metricBuilder.Build`, or the downstream consumer) -/
  | external (msg : String)
deriving DecidableEq, Repr

/-- A single appended sample (`AddDataPoint` argument triple). -/
structure DataPoint where
  ls : Labels
  t : Int
  vNaN : Bool
  v : Int
deriving DecidableEq

/-- Modelled from the spec: `MetadataService` (its source file is not under
`src/`) serves a per-target metadata cache; the transaction only reads the
cache's shared labels (`mc.SharedLabels().Get(model.SchemeLabel)`). -/
structure MetadataCache where
  sharedLabels : Labels
deriving DecidableEq

/-- Modelled from the spec: the per-target metric builder
(`metricsbuilder.go` is not under `src/`) is an accumulator of data points
for one target. -/
structure MetricBuilder where
  mc : MetadataCache
  points : List DataPoint
deriving DecidableEq

/-- Go `newMetricBuilder(mc, logger)`: a fresh accumulator for the target. -/
def newMetricBuilder (mc : MetadataCache) : MetricBuilder :=
  { mc := mc, points := [] }

/-- A scrape sample value: either the Go float64 NaN or an ordinary value
(whose numeric payload no claim depends on; we carry an integer). -/
inductive SampleValue where
  | nan
  | val (q : Int)
deriving DecidableEq, Repr

/-- Go `math.IsNaN` on a sample value. -/
def SampleValue.isNaN : SampleValue → Bool
  | .nan => true
  | .val _ => false

/-- Go `consumerdata.MetricsData`: the batch handed to the downstream metrics
consumer — a node descriptor plus the metric payload. -/
structure MetricsData where
  node : Option Node
  metrics : List DataPoint
deriving DecidableEq

/-- The transaction's collaborators whose source files are not under `src/`,
modelled as opaque functions the theorems quantify over.
Modelled from the spec: `MetadataService.Get` (metadata lookup that can
fail), `metricBuilder.AddDataPoint` and `metricBuilder.Build`
(metricsbuilder.go), the `JobsMap`-based `MetricsAdjuster.AdjustMetrics`
(metrics_adjuster.go), and the downstream
`MetricsConsumer.ConsumeMetricsData` sink. -/
structure Deps where
  /-- Go `tr.ms.Get(job, instance)` -/
  msGet : String → String → Except TxError MetadataCache
  /-- Go `tr.metricBuilder.AddDataPoint(ls, t, v)` -/
  addDataPoint : MetricBuilder → Labels → Int → SampleValue → Except TxError MetricBuilder
  /-- Go `tr.metricBuilder.Build()` (the numeric observability counters are
  dropped) -/
  build : MetricBuilder → Except TxError (List DataPoint)
  /-- Go `NewMetricsAdjuster(tr.jobsMap.get(job, instance), logger).AdjustMetrics(metrics)` -/
  adjust : String → String → List DataPoint → List DataPoint
  /-- Go `tr.sink.ConsumeMetricsData(ctx, md)` -/
  consume : MetricsData → Option TxError

/-- The mutable state of `transaction` (transaction.go).  The downstream
sink and the service collaborators live in `Deps`; `ctxDone` stands for
`tr.ctx` having been cancelled. -/
structure Transaction where
  ctxDone : Bool
  isNew : Bool
  job : String
  /-- Go field `instance` (`instance` is a Lean keyword). -/
  instanceName : String
  hasJobsMap : Bool
  node : Option Node
  metricBuilder : Option MetricBuilder
deriving DecidableEq

/-- Go `newTransaction`: fresh state for one scrape of one target. -/
def Transaction.new (hasJobsMap ctxDone : Bool) : Transaction :=
  { ctxDone := ctxDone
    isNew := true
    job := ""
    instanceName := ""
    hasJobsMap := hasJobsMap
    node := none
    metricBuilder := none }

/-- Go `transaction.initTransaction(ls)`: resolve `(job, instance)` from the
reserved labels (`model.JobLabel = "job"`, `model.InstanceLabel =
"instance"`), fail with `errNoJobInstance` when either is empty, look up
the target metadata, then record job/instance (only when a `JobsMap` is
present), the node, and a fresh metric builder, clearing `isNew`.
On error the state is returned unchanged, as in the Go method, which
returns before any field assignment. -/
def Transaction.initTransaction (deps : Deps) (tr : Transaction) (ls : Labels) :
    Except TxError Transaction :=
  let job := ls.get "job"
  let inst := ls.get "instance"
  if job == "" || inst == "" then
    .error .noJobInstance
  else
    match deps.msGet job inst with
    | .error e => .error e
    | .ok mc =>
      let tr := if tr.hasJobsMap then { tr with job := job, instanceName := inst } else tr
      .ok { tr with
        node := some (createNode job inst (mc.sharedLabels.get "__scheme__"))
        metricBuilder := some (newMetricBuilder mc)
        isNew := false }

/-- Go `transaction.AddFast(ls, _, t, v)`.  Returns the state after the call
and the Go error result (`none` = `nil`). -/
def Transaction.AddFast (deps : Deps) (tr : Transaction) (ls : Labels) (t : Int)
    (v : SampleValue) : Transaction × Option TxError :=
  if v.isNaN then
    (tr, none)
  else if tr.ctxDone then
    (tr, some .transactionAborted)
  else
    match (if tr.isNew then tr.initTransaction deps ls else .ok tr) with
    | .error e => (tr, some e)
    | .ok tr' =>
      match tr'.metricBuilder with
      | none => (tr', some .nilBuilder)
      | some mb =>
        match deps.addDataPoint mb ls t v with
        | .error e => (tr', some e)
        | .ok mb' => ({ tr' with metricBuilder := some mb' }, none)

/-- Go `transaction.Add(l, t, v)` delegates to `AddFast` with ref `0`. -/
def Transaction.Add (deps : Deps) (tr : Transaction) (ls : Labels) (t : Int)
    (v : SampleValue) : Transaction × Option TxError :=
  tr.AddFast deps ls t v

/-- Go `transaction.Commit()`.  First component: the `MetricsData` handed to
the downstream consumer (`none` when the consumer is not invoked); second
component: the Go error result. -/
def Transaction.Commit (deps : Deps) (tr : Transaction) :
    Option MetricsData × Option TxError :=
  if tr.isNew then
    (none, none)
  else
    match tr.metricBuilder with
    | none => (none, some .nilBuilder)
    | some mb =>
      match deps.build mb with
      | .error e => (none, some e)
      | .ok metrics =>
        let metrics :=
          if tr.hasJobsMap then deps.adjust tr.job tr.instanceName metrics
          else metrics
        if metrics.length > 0 then
          let md : MetricsData := { node := tr.node, metrics := metrics }
          (some md, deps.consume md)
        else
          (none, none)

/-- Go `transaction.Rollback()` always returns `nil`. -/
def Transaction.Rollback (_tr : Transaction) : Option TxError :=
  none

/-- A concrete instantiation of the modelled collaborators, used by the
witness theorems: metadata lookup always succeeds with empty shared labels,
`AddDataPoint` requires a `__name__` label (per the spec's
`MetricNameMissing` error) and appends the point, `Build` returns the
accumulated points, adjustment is the identity, and the downstream consumer
accepts everything. -/
def defaultDeps : Deps :=
  { msGet := fun _ _ => .ok { sharedLabels := [] }
    addDataPoint := fun mb ls t v =>
      if ls.get "__name__" == "" then .error .metricNameNotFound
      else .ok { mb with points :=
        mb.points ++ [{ ls := ls, t := t, vNaN := v.isNaN, v := match v with | .nan => 0 | .val q => q }] }
    build := fun mb => .ok mb.points
    adjust := fun _ _ ms => ms
    consume := fun _ => none }

/-! ## Component configs and factories

The `configmodels` settings records are not under `src/`; their fields are
modelled from their use in the factory files and from the spec ("a tagged
record carrying at minimum: type string, instance name, …").  Go zero
values (`""`, `0`, `false`, `nil`) appear wherever a composite literal
omits a field. -/

/-- Modelled from the spec: `configmodels.ExporterSettings` — the common
exporter config record (type string, instance name). -/
structure ExporterSettings where
  TypeVal : String := ""
  NameVal : String := ""
deriving DecidableEq, Repr

/-- Modelled from the spec: `configmodels.ReceiverSettings` — the common
receiver config record (type string, instance name, endpoint). -/
structure ReceiverSettings where
  TypeVal : String := ""
  NameVal : String := ""
  Endpoint : String := ""
deriving DecidableEq, Repr

/-- Modelled from the spec: `configmodels.ProcessorSettings`. -/
structure ProcessorSettings where
  TypeVal : String := ""
  NameVal : String := ""
deriving DecidableEq, Repr

/-- Modelled from the spec: `configmodels.ExtensionSettings`. -/
structure ExtensionSettings where
  TypeVal : String := ""
  NameVal : String := ""
deriving DecidableEq, Repr

/-- Non-`nil` error outcomes of the `Create*Exporter` factory calls:
`configerror.ErrDataTypeIsNotSupported`, or an ordinary error carrying a
message. -/
inductive FactoryError where
  | dataTypeIsNotSupported
  | msg (s : String)
deriving DecidableEq, Repr

/-! ### The jaeger_grpc exporter factory (package `jaegergrpcexporter`) -/

/-- Go `typeStr` of the jaeger_grpc exporter. -/
def jaegerGrpcTypeStr : String := "jaeger_grpc"

/-- The jaeger_grpc exporter `Config`: the embedded `ExporterSettings` plus
the `Endpoint` the test mutates directly (its config.go is not under
`src/`; the fields are the ones the factory and its test read). -/
structure JaegerGrpcConfig where
  settings : ExporterSettings
  Endpoint : String := ""
deriving DecidableEq, Repr

/-- The promoted `Name()` accessor of the embedded settings. -/
def JaegerGrpcConfig.Name (c : JaegerGrpcConfig) : String :=
  c.settings.NameVal

/-- Go `Factory.CreateDefaultConfig` of jaeger_grpc: type and name both
`typeStr`, endpoint left at the Go zero value `""`. -/
def jaegerGrpcCreateDefaultConfig : JaegerGrpcConfig :=
  { settings := { TypeVal := jaegerGrpcTypeStr, NameVal := jaegerGrpcTypeStr }
    Endpoint := "" }

/-- The error message `fmt.Errorf("%q config requires a non-empty
\"endpoint\"", expCfg.Name())` builds.  Go's `%q` is modelled as plain
double-quoting, exact for names without escape-needing characters. -/
def jaegerGrpcEndpointErrMsg (name : String) : String :=
  "\"" ++ name ++ "\" config requires a non-empty \"endpoint\""

/-- Go `Factory.CreateTraceExporter` of jaeger_grpc: reject an empty endpoint
with the message above; otherwise an exporter instance is produced (`New`'s
source is not under `src/`; modelled from the spec's scenario 4, where
creation with a non-empty endpoint succeeds). -/
def jaegerGrpcCreateTraceExporter (cfg : JaegerGrpcConfig) :
    Except FactoryError Unit :=
  if cfg.Endpoint == "" then
    .error (.msg (jaegerGrpcEndpointErrMsg cfg.Name))
  else
    .ok ()

/-- Go `Factory.CreateMetricsExporter` of jaeger_grpc: always
`(nil, configerror.ErrDataTypeIsNotSupported)`. -/
def jaegerGrpcCreateMetricsExporter (_cfg : JaegerGrpcConfig) :
    Except FactoryError Unit :=
  .error .dataTypeIsNotSupported

/-! ### The example factories (`config/example_factories.go`) -/

/-- Go `ExampleReceiver` config. Go `nil` maps/slices are empty lists. -/
structure ExampleReceiver where
  settings : ReceiverSettings
  ExtraSetting : String := ""
  ExtraMapSetting : List (String × String) := []
  ExtraListSetting : List String := []
  FailTraceCreation : Bool := false
  FailMetricsCreation : Bool := false
deriving DecidableEq, Repr

/-- Go `ExampleReceiverFactory.CreateDefaultConfig`. -/
def exampleReceiverCreateDefaultConfig : ExampleReceiver :=
  { settings := { TypeVal := "examplereceiver", Endpoint := "localhost:1000" }
    ExtraSetting := "some string"
    ExtraMapSetting := []
    ExtraListSetting := [] }

/-- Go `MultiProtoReceiverOneCfg`: one sub-protocol of the multi-protocol
receiver. -/
structure MultiProtoReceiverOneCfg where
  Disabled : Bool := false
  Endpoint : String := ""
  ExtraSetting : String := ""
deriving DecidableEq, Repr

/-- Go `MultiProtoReceiver` config; the Go `map[string]…` of protocols is an
association list. -/
structure MultiProtoReceiver where
  TypeVal : String := ""
  NameVal : String := ""
  Protocols : List (String × MultiProtoReceiverOneCfg) := []
deriving DecidableEq, Repr

/-- Go `MultiProtoReceiver.IsEnabled`: true iff some protocol is not
disabled. -/
def MultiProtoReceiver.IsEnabled (rs : MultiProtoReceiver) : Bool :=
  rs.Protocols.any (fun p => !p.2.Disabled)

/-- Go `MultiProtoReceiverFactory.CreateDefaultConfig`. -/
def multiProtoReceiverCreateDefaultConfig : MultiProtoReceiver :=
  { TypeVal := "multireceiver"
    Protocols :=
      [("http", { Endpoint := "example.com:8888", ExtraSetting := "extra string 1" }),
       ("tcp", { Endpoint := "omnition.com:9999", ExtraSetting := "extra string 2" })] }

/-- Go `ExampleExporter` config. -/
structure ExampleExporter where
  settings : ExporterSettings
  ExtraInt : Int := 0
  ExtraSetting : String := ""
  ExtraMapSetting : List (String × String) := []
  ExtraListSetting : List String := []
  ExporterShutdown : Bool := false
deriving DecidableEq, Repr

/-- Go `ExampleExporterFactory.CreateDefaultConfig`: note the embedded
`ExporterSettings{}` is the zero value — its type string is `""`. -/
def exampleExporterCreateDefaultConfig : ExampleExporter :=
  { settings := {}
    ExtraSetting := "some export string"
    ExtraMapSetting := []
    ExtraListSetting := [] }

/-- Go `ExampleProcessor` config. -/
structure ExampleProcessor where
  settings : ProcessorSettings
  ExtraSetting : String := ""
  ExtraMapSetting : List (String × String) := []
  ExtraListSetting : List String := []
deriving DecidableEq, Repr

/-- Go `ExampleProcessorFactory.CreateDefaultConfig`: zero
`ProcessorSettings{}`. -/
def exampleProcessorCreateDefaultConfig : ExampleProcessor :=
  { settings := {}
    ExtraSetting := "some export string"
    ExtraMapSetting := []
    ExtraListSetting := [] }

/-- Go `ExampleExtension` config. -/
structure ExampleExtension where
  settings : ExtensionSettings
  ExtraSetting : String := ""
  ExtraMapSetting : List (String × String) := []
  ExtraListSetting : List String := []
deriving DecidableEq, Repr

/-- Go `ExampleExtensionFactory.CreateDefaultConfig`: zero
`ExtensionSettings{}`. -/
def exampleExtensionCreateDefaultConfig : ExampleExtension :=
  { settings := {}
    ExtraSetting := "extra string setting"
    ExtraMapSetting := []
    ExtraListSetting := [] }

/-! ### The factories present in the repository, as one enumeration

The factories whose source is in the repository: the five example factories
registered by `ExampleComponents` and the jaeger_grpc exporter factory. -/

/-- One constructor per factory implemented in the repository. -/
inductive RepoFactory where
  | exampleReceiverFactory
  | multiProtoReceiverFactory
  | exampleExporterFactory
  | exampleProcessorFactory
  | exampleExtensionFactory
  | jaegerGrpcExporterFactory
deriving DecidableEq, Repr

/-- Each factory's `Type()`. -/
def RepoFactory.type : RepoFactory → String
  | .exampleReceiverFactory => "examplereceiver"
  | .multiProtoReceiverFactory => "multireceiver"
  | .exampleExporterFactory => "exampleexporter"
  | .exampleProcessorFactory => "exampleprocessor"
  | .exampleExtensionFactory => "exampleextension"
  | .jaegerGrpcExporterFactory => jaegerGrpcTypeStr

/-- The type string carried by each factory's `CreateDefaultConfig()`
result. -/
def RepoFactory.defaultConfigTypeVal : RepoFactory → String
  | .exampleReceiverFactory => exampleReceiverCreateDefaultConfig.settings.TypeVal
  | .multiProtoReceiverFactory => multiProtoReceiverCreateDefaultConfig.TypeVal
  | .exampleExporterFactory => exampleExporterCreateDefaultConfig.settings.TypeVal
  | .exampleProcessorFactory => exampleProcessorCreateDefaultConfig.settings.TypeVal
  | .exampleExtensionFactory => exampleExtensionCreateDefaultConfig.settings.TypeVal
  | .jaegerGrpcExporterFactory => jaegerGrpcCreateDefaultConfig.settings.TypeVal

/-! ## Claim theorems -/

/-- C2: a scrape transaction on which no add call has succeeded (still in
the `New` state) commits successfully — `Commit` returns `nil` and the
downstream metrics consumer is not invoked. -/
theorem commit_on_new_transaction_succeeds_without_consume
    (deps : Deps) (tr : Transaction) (h : tr.isNew = true) :
    tr.Commit deps = (none, none) := by
  simp [Transaction.Commit, h]

/-- Witness for C2 at a freshly created transaction. -/
theorem commit_on_new_transaction_succeeds_without_consume_witness :
    (Transaction.new false false).isNew = true ∧
    (Transaction.new false false).Commit defaultDeps = (none, none) :=
  ⟨rfl, commit_on_new_transaction_succeeds_without_consume defaultDeps
    (Transaction.new false false) rfl⟩

/-- C3: an `AddFast` call with a NaN value returns `nil` and appends
nothing — the transaction state is returned unchanged, whatever the rest of
the state is. -/
theorem addfast_nan_returns_nil_and_changes_nothing
    (deps : Deps) (tr : Transaction) (ls : Labels) (t : Int) (v : SampleValue)
    (h : v.isNaN = true) :
    tr.AddFast deps ls t v = (tr, none) := by
  simp [Transaction.AddFast, h]

/-- Witness for C3 on a cancelled mid-scrape transaction and a NaN value. -/
theorem addfast_nan_returns_nil_and_changes_nothing_witness :
    (SampleValue.nan).isNaN = true ∧
    (Transaction.new true true).AddFast defaultDeps [("job", "j")] 7 .nan =
      (Transaction.new true true, none) :=
  ⟨rfl, addfast_nan_returns_nil_and_changes_nothing defaultDeps
    (Transaction.new true true) [("job", "j")] 7 .nan rfl⟩

/-- C4: once the transaction's cancellation context has been triggered,
every `AddFast` with a non-NaN value returns `errTransactionAborted` and
does not append the sample (the state is returned unchanged). -/
theorem addfast_after_cancellation_aborts
    (deps : Deps) (tr : Transaction) (ls : Labels) (t : Int) (v : SampleValue)
    (hv : v.isNaN = false) (hc : tr.ctxDone = true) :
    tr.AddFast deps ls t v = (tr, some .transactionAborted) := by
  simp [Transaction.AddFast, hv, hc]

/-- Witness for C4 at a cancelled fresh transaction and the value 1. -/
theorem addfast_after_cancellation_aborts_witness :
    (SampleValue.val 1).isNaN = false ∧
    (Transaction.new false true).ctxDone = true ∧
    (Transaction.new false true).AddFast defaultDeps
      [("__name__", "m"), ("job", "j"), ("instance", "h:9090")] 1 (.val 1) =
      (Transaction.new false true, some .transactionAborted) :=
  ⟨rfl, rfl, addfast_after_cancellation_aborts defaultDeps
    (Transaction.new false true)
    [("__name__", "m"), ("job", "j"), ("instance", "h:9090")] 1 (.val 1) rfl rfl⟩

/-- C8: `MultiProtoReceiver.IsEnabled` is true exactly when some entry of
the protocol map is not disabled; with every protocol disabled, or with no
protocols at all, the receiver is reported disabled. -/
theorem multiproto_receiver_isenabled_iff_some_protocol_enabled
    (rs : MultiProtoReceiver) :
    rs.IsEnabled = true ↔ ∃ p ∈ rs.Protocols, p.2.Disabled = false := by
  simp [MultiProtoReceiver.IsEnabled, List.any_eq_true, Bool.not_eq_true']

/-- C10: `CreateMetricsExporter` of the jaeger_grpc factory returns no
exporter and `configerror.ErrDataTypeIsNotSupported`, for every config. -/
theorem jaeger_grpc_create_metrics_exporter_unsupported
    (cfg : JaegerGrpcConfig) :
    jaegerGrpcCreateMetricsExporter cfg = .error .dataTypeIsNotSupported :=
  rfl

/-- C1 counterexample: the `ExampleExporterFactory` answers the type string
`"exampleexporter"`, but its `CreateDefaultConfig` leaves the embedded
`ExporterSettings` at the zero value, so the returned config's type string
is `""` — the claimed invariant fails on this factory. -/
theorem example_exporter_default_config_type_mismatch :
    RepoFactory.defaultConfigTypeVal .exampleExporterFactory = "" ∧
    RepoFactory.type .exampleExporterFactory = "exampleexporter" ∧
    RepoFactory.defaultConfigTypeVal .exampleExporterFactory ≠
      RepoFactory.type .exampleExporterFactory := by
  decide

/-- C1 (amended): for every factory in the repository other than the three
example factories that leave their settings at the zero value
(`ExampleExporterFactory`, `ExampleProcessorFactory`,
`ExampleExtensionFactory`), the config returned by `CreateDefaultConfig`
carries a type string equal to the factory's `Type()`. -/
theorem default_config_type_matches_factory_type
    (f : RepoFactory)
    (h1 : f ≠ .exampleExporterFactory)
    (h2 : f ≠ .exampleProcessorFactory)
    (h3 : f ≠ .exampleExtensionFactory) :
    f.defaultConfigTypeVal = f.type := by
  cases f <;> first
    | rfl
    | exact absurd rfl h1
    | exact absurd rfl h2
    | exact absurd rfl h3

/-- Witness for the amended C1 at the jaeger_grpc exporter factory. -/
theorem default_config_type_matches_factory_type_witness :
    RepoFactory.defaultConfigTypeVal .jaegerGrpcExporterFactory =
      RepoFactory.type .jaegerGrpcExporterFactory :=
  default_config_type_matches_factory_type .jaegerGrpcExporterFactory
    (by decide) (by decide) (by decide)

/-- C5 counterexample: a transaction still in the `New` state whose
cancellation context has been triggered refutes the claim as stated — an
add with a non-NaN value and an empty job label returns
`errTransactionAborted`, not `errNoJobInstance` (the cancellation check
precedes the job/instance check in `AddFast`). -/
theorem addfast_cancelled_new_empty_job_not_nojobinstance :
    (Transaction.new false true).isNew = true ∧
    ((Transaction.new false true).AddFast defaultDeps [("instance", "i")] 0
        (.val 1)).2 = some TxError.transactionAborted ∧
    ((Transaction.new false true).AddFast defaultDeps [("instance", "i")] 0
        (.val 1)).2 ≠ some TxError.noJobInstance := by
  decide

/-- C5 (amended): for every transaction in the `New` state whose
cancellation context has not been triggered, an add with a non-NaN value
whose label set has an empty `job` label or an empty `instance` label
returns `errNoJobInstance` (and leaves the state unchanged). -/
theorem addfast_new_empty_job_or_instance_returns_nojobinstance
    (deps : Deps) (tr : Transaction) (ls : Labels) (t : Int) (v : SampleValue)
    (hnew : tr.isNew = true) (hctx : tr.ctxDone = false) (hv : v.isNaN = false)
    (hmiss : ls.get "job" = "" ∨ ls.get "instance" = "") :
    tr.AddFast deps ls t v = (tr, some .noJobInstance) := by
  rcases hmiss with h | h <;>
    simp [Transaction.AddFast, Transaction.initTransaction, hnew, hctx, hv, h]

/-- Witness for the amended C5: a fresh uncancelled transaction fed labels
that carry an instance but no job. -/
theorem addfast_new_empty_job_or_instance_returns_nojobinstance_witness :
    (Transaction.new false false).isNew = true ∧
    (Transaction.new false false).ctxDone = false ∧
    (SampleValue.val 1).isNaN = false ∧
    Labels.get [("instance", "h:9090")] "job" = "" ∧
    (Transaction.new false false).AddFast defaultDeps [("instance", "h:9090")]
      0 (.val 1) = (Transaction.new false false, some .noJobInstance) :=
  ⟨rfl, rfl, rfl, rfl,
    addfast_new_empty_job_or_instance_returns_nojobinstance defaultDeps
      (Transaction.new false false) [("instance", "h:9090")] 0 (.val 1)
      rfl rfl rfl (Or.inl rfl)⟩

/-- C9: when the first non-NaN add on a fresh transaction fails during
initialisation (empty job or instance label, or a metadata-service error),
`AddFast` surfaces that error with the state unchanged: the transaction is
still `New` with no node and no metric builder, and a subsequent `Commit`
returns `nil` without invoking the downstream consumer. -/
theorem init_failure_leaves_transaction_new_and_commit_empty
    (deps : Deps) (tr : Transaction) (ls : Labels) (t : Int) (v : SampleValue)
    (e : TxError)
    (hnew : tr.isNew = true) (hnode : tr.node = none)
    (hmb : tr.metricBuilder = none) (hctx : tr.ctxDone = false)
    (hv : v.isNaN = false)
    (hinit : tr.initTransaction deps ls = .error e) :
    tr.AddFast deps ls t v = (tr, some e) ∧
    (tr.AddFast deps ls t v).1.isNew = true ∧
    (tr.AddFast deps ls t v).1.node = none ∧
    (tr.AddFast deps ls t v).1.metricBuilder = none ∧
    ((tr.AddFast deps ls t v).1).Commit deps = (none, none) := by
  have h1 : tr.AddFast deps ls t v = (tr, some e) := by
    simp [Transaction.AddFast, hv, hctx, hnew, hinit]
  refine ⟨h1, ?_, ?_, ?_, ?_⟩ <;> rw [h1]
  · exact hnew
  · exact hnode
  · exact hmb
  · simp [Transaction.Commit, hnew]

/-- Witness for C9: a fresh transaction fed labels with no job label; the
initialisation fails with `errNoJobInstance` and the commit that follows is
an empty success. -/
theorem init_failure_leaves_transaction_new_and_commit_empty_witness :
    (Transaction.new false false).isNew = true ∧
    (Transaction.new false false).node = none ∧
    (Transaction.new false false).metricBuilder = none ∧
    (Transaction.new false false).ctxDone = false ∧
    (SampleValue.val 1).isNaN = false ∧
    (Transaction.new false false).initTransaction defaultDeps [] =
      .error .noJobInstance ∧
    ((Transaction.new false false).AddFast defaultDeps [] 0 (.val 1) =
        (Transaction.new false false, some .noJobInstance) ∧
      ((Transaction.new false false).AddFast defaultDeps [] 0 (.val 1)).1.isNew = true ∧
      ((Transaction.new false false).AddFast defaultDeps [] 0 (.val 1)).1.node = none ∧
      ((Transaction.new false false).AddFast defaultDeps [] 0 (.val 1)).1.metricBuilder = none ∧
      (((Transaction.new false false).AddFast defaultDeps [] 0 (.val 1)).1).Commit
        defaultDeps = (none, none)) :=
  ⟨rfl, rfl, rfl, rfl, rfl, rfl,
    init_failure_leaves_transaction_new_and_commit_empty defaultDeps
      (Transaction.new false false) [] 0 (.val 1) .noJobInstance
      rfl rfl rfl rfl rfl rfl⟩

/-- C6 counterexample: on an instance with two colons the code's port is
the segment between the first and second colon (`strings.Split` segment 1),
not "the part after the first colon" — at `instance = "h:1:2"` the node
carries port `"1"` while the claim demands `"1:2"`. -/
theorem createnode_port_on_multi_colon_instance :
    (createNode "j" "h:1:2" "s").portAttr = "1" ∧
    portAfterFirstColon "h:1:2" = "1:2" ∧
    createNode "j" "h:1:2" "s" ≠
      { serviceName := "j"
        hostName := hostBeforeFirstColon "h:1:2"
        portAttr := portAfterFirstColon "h:1:2"
        schemeAttr := "s" } := by
  decide

/-- C6 (amended): `createNode job instance scheme` yields service name
`job`, host the part of `instance` before the first `":"`, scheme attribute
`scheme`, and port attribute the colon-free segment that follows the first
`":"` (the part after the first colon truncated at the next colon) when
`instance` contains `":"`, and `"80"` otherwise. -/
theorem createnode_fields (job inst scheme : String) :
    createNode job inst scheme =
      { serviceName := job
        hostName := hostBeforeFirstColon inst
        portAttr :=
          if inst.data.contains ':' then
            String.mk
              (((inst.data.dropWhile (fun c => c != ':')).tail).takeWhile
                (fun c => c != ':'))
          else "80"
        schemeAttr := scheme } := by
  by_cases hd : inst.data.contains ':' = true
  · simp only [createNode, splitChars_eq ':' inst.data,
      splitChars_eq ':' ((inst.data.dropWhile (fun c => c != ':')).tail),
      hd, if_true, List.map_cons, List.headD_cons, hostBeforeFirstColon]
    have hlen :
        2 ≤ (String.mk (inst.data.takeWhile (fun c => c != ':')) ::
          String.mk
            (((inst.data.dropWhile (fun c => c != ':')).tail).takeWhile
              (fun c => c != ':')) ::
          (if ((inst.data.dropWhile (fun c => c != ':')).tail).contains ':' then
              splitChars ':'
                ((((inst.data.dropWhile (fun c => c != ':')).tail).dropWhile
                  (fun c => c != ':')).tail)
            else []).map (fun l => String.mk l)).length := by
      simp [List.length_cons]
    simp [hlen]
  · simp only [createNode, splitChars_eq ':' inst.data, hd,
      if_false, List.map_cons, List.map_nil, List.headD_cons,
      hostBeforeFirstColon]
    simp

/-- A jaeger_grpc exporter config whose name was set to `"x"`; used to
refute C7 as stated. -/
def jaegerGrpcRenamedConfig : JaegerGrpcConfig :=
  { settings := { TypeVal := jaegerGrpcTypeStr, NameVal := "x" }
    Endpoint := "" }

/-- C7 counterexample: the rejection message quotes the config's *name*,
so a jaeger_grpc config renamed to `"x"` with an empty endpoint is refused
with a message that does not contain `"jaeger_grpc"`. -/
theorem jaeger_grpc_renamed_config_message_lacks_type :
    jaegerGrpcRenamedConfig.Endpoint = "" ∧
    jaegerGrpcCreateTraceExporter jaegerGrpcRenamedConfig =
      .error (.msg "\"x\" config requires a non-empty \"endpoint\"") ∧
    hasSubstr "\"x\" config requires a non-empty \"endpoint\"" "jaeger_grpc" =
      false :=
  ⟨rfl, rfl, by decide⟩

/-- C7 (amended): for every jaeger_grpc exporter config with an empty
`Endpoint` whose name begins with `"jaeger_grpc"` — as every
loader-produced instance name does, and in particular the factory's
default config — `CreateTraceExporter` produces no exporter and returns an
error whose message contains `"jaeger_grpc"` and `"endpoint"`. -/
theorem jaeger_grpc_empty_endpoint_rejected
    (cfg : JaegerGrpcConfig) (s : String)
    (he : cfg.Endpoint = "") (hn : cfg.Name = "jaeger_grpc" ++ s) :
    jaegerGrpcCreateTraceExporter cfg =
      .error (.msg (jaegerGrpcEndpointErrMsg cfg.Name)) ∧
    hasSubstr (jaegerGrpcEndpointErrMsg cfg.Name) "endpoint" = true ∧
    hasSubstr (jaegerGrpcEndpointErrMsg cfg.Name) "jaeger_grpc" = true := by
  refine ⟨by simp [jaegerGrpcCreateTraceExporter, he], ?_, ?_⟩
  · unfold jaegerGrpcEndpointErrMsg
    exact hasSubstr_append_of_right _ _ _ (by decide)
  · unfold jaegerGrpcEndpointErrMsg
    rw [hn]
    have hassoc :
        "\"" ++ ("jaeger_grpc" ++ s) ++
            "\" config requires a non-empty \"endpoint\"" =
          "\"" ++
            ("jaeger_grpc" ++ (s ++ "\" config requires a non-empty \"endpoint\"")) := by
      apply String.ext
      simp [String.data_append]
    rw [hassoc]
    exact hasSubstr_append_of_right _ _ _ (hasSubstr_self_append _ _)

/-- Witness for the amended C7 at the factory's default config. -/
theorem jaeger_grpc_empty_endpoint_rejected_witness :
    jaegerGrpcCreateDefaultConfig.Endpoint = "" ∧
    jaegerGrpcCreateDefaultConfig.Name = "jaeger_grpc" ++ "" ∧
    (jaegerGrpcCreateTraceExporter jaegerGrpcCreateDefaultConfig =
        .error (.msg (jaegerGrpcEndpointErrMsg jaegerGrpcCreateDefaultConfig.Name)) ∧
      hasSubstr (jaegerGrpcEndpointErrMsg jaegerGrpcCreateDefaultConfig.Name)
        "endpoint" = true ∧
      hasSubstr (jaegerGrpcEndpointErrMsg jaegerGrpcCreateDefaultConfig.Name)
        "jaeger_grpc" = true) :=
  ⟨rfl, by decide,
    jaeger_grpc_empty_endpoint_rejected jaegerGrpcCreateDefaultConfig ""
      rfl (by decide)⟩

end OtelSvc
